import Mathlib

/-!
# Verification of the nt-backend order-book core

A shallow embedding of the order-book manager, feed processor and
dissemination path of the nt-backend repository, with theorems settling
the specification's claims about them.

Python dictionaries are modelled as association lists; `insertKey`
replaces any previous binding, so key sets stay duplicate-free along all
reachable states, and all stored-state properties are stated through
`lookupKey` (extensional dictionary content).  Python exceptions
(AttributeError from a `None` dereference, KeyError from `dict[k]`) are
modelled with `Except Unit`, `Except.error ()` standing for an uncaught
exception that crashes the enclosing task.
-/

/-- Association-list lookup: the model of Python `dict.get(k)`. -/
def lookupKey {α β : Type} [DecidableEq α] : List (α × β) → α → Option β
  | [], _ => none
  | (k, v) :: rest, key => if key = k then some v else lookupKey rest key

/-- Remove every binding of a key: the model of `dict.pop(k, None)`. -/
def eraseKey {α β : Type} [DecidableEq α] (m : List (α × β)) (k : α) : List (α × β) :=
  m.filter (fun p => p.1 ≠ k)

/-- Set a key to a value, replacing any previous binding: the model of
`dict[k] = v`. -/
def insertKey {α β : Type} [DecidableEq α] (m : List (α × β)) (k : α) (v : β) :
    List (α × β) :=
  eraseKey m k ++ [(k, v)]

/-- The keys of the dictionary, model of `dict.keys()`. -/
def keysOf {α β : Type} (m : List (α × β)) : List α :=
  m.map (fun p => p.1)

/-- Maximum key of a dictionary, model of `max(dict.keys())`
(`none` on an empty dictionary, where Python `max` would raise). -/
def maxKey : List (Int × Int) → Option Int
  | [] => none
  | (k, _) :: rest =>
    match maxKey rest with
    | none => some k
    | some m => some (max k m)

/-- The top-of-book record returned by `OrderBook.top_of_book`
(the Python dict with keys ticker/bid_price/bid_quantity/ask_price/ask_quantity;
equality is structural over all five fields, as for Python dicts). -/
structure TopOfBook where
  ticker : String
  bid_price : Option Int
  bid_quantity : Option Int
  ask_price : Option Int
  ask_quantity : Option Int
deriving DecidableEq, Repr

/-- The per-ticker two-sided book: `OrderBook` from
`src/app/order_book_manager.py`, with its `_yes_orders`, `_no_orders`
dictionaries and `_top_of_book_cache`. -/
structure OrderBook where
  market_ticker : String
  yes_orders : List (Int × Int)
  no_orders : List (Int × Int)
  top_of_book_cache : Option TopOfBook
deriving DecidableEq, Repr

/-- `OrderBook(market_ticker)`: both sides empty, no cache. -/
def OrderBook.init (market_ticker : String) : OrderBook :=
  ⟨market_ticker, [], [], none⟩

/-- One side of `OrderBook.update_from_snapshot`'s population loop:
`for price, quantity in orders: if quantity >= 0: side[price] = quantity`.
(The source comment says "Only store positive quantities" but the test
is `quantity >= 0`.) -/
def storeLevels (side : List (Int × Int)) (orders : List (Int × Int)) :
    List (Int × Int) :=
  orders.foldl
    (fun acc pq => if pq.2 ≥ 0 then insertKey acc pq.1 pq.2 else acc) side

/-- `OrderBook.update_from_snapshot(yes_orders=None, no_orders=None)`:
`yes_orders = yes_orders or {}` turns an absent (or empty) input into an
empty iteration; each side is then populated in place.  The cache is not
touched by this method. -/
def OrderBook.update_from_snapshot (b : OrderBook)
    (yes_orders no_orders : Option (List (Int × Int))) : OrderBook :=
  { b with
    yes_orders := storeLevels b.yes_orders (yes_orders.getD [])
    no_orders := storeLevels b.no_orders (no_orders.getD []) }

/-- `OrderBook.update_from_delta(price, delta, side)`: invalidates the
cache, then on the named side sets `new_qty = side.get(price, 0) + delta`,
removing the level when `new_qty <= 0` and storing `new_qty` otherwise.
A side string other than "yes"/"no" leaves both sides untouched. -/
def OrderBook.update_from_delta (b : OrderBook) (price delta : Int)
    (side : String) : OrderBook :=
  let b1 : OrderBook := { b with top_of_book_cache := none }
  if side = "yes" then
    let current_qty := (lookupKey b1.yes_orders price).getD 0
    let new_qty := current_qty + delta
    if new_qty ≤ 0 then
      { b1 with yes_orders := eraseKey b1.yes_orders price }
    else
      { b1 with yes_orders := insertKey b1.yes_orders price new_qty }
  else if side = "no" then
    let current_qty := (lookupKey b1.no_orders price).getD 0
    let new_qty := current_qty + delta
    if new_qty ≤ 0 then
      { b1 with no_orders := eraseKey b1.no_orders price }
    else
      { b1 with no_orders := insertKey b1.no_orders price new_qty }
  else
    b1

/-- The pure computation inside `OrderBook.top_of_book` (the cache-miss
path): best bid from the max `yes` key, best ask as `100 - max no key`. -/
def OrderBook.computeTopOfBook (b : OrderBook) : TopOfBook :=
  let bid_price := maxKey b.yes_orders
  let bid_quantity :=
    match bid_price with
    | none => none
    | some p => lookupKey b.yes_orders p
  let askPair : Option Int × Option Int :=
    match maxKey b.no_orders with
    | none => (none, none)
    | some highest => (some (100 - highest), lookupKey b.no_orders highest)
  { ticker := b.market_ticker
    bid_price := bid_price
    bid_quantity := bid_quantity
    ask_price := askPair.1
    ask_quantity := askPair.2 }

/-- `OrderBook.top_of_book()`: returns the cached value when present,
otherwise computes and stores it.  The read mutates the book (caching),
so it returns the value together with the updated book. -/
def OrderBook.top_of_book (b : OrderBook) : TopOfBook × OrderBook :=
  match b.top_of_book_cache with
  | some t => (t, b)
  | none =>
    let t := b.computeTopOfBook
    (t, { b with top_of_book_cache := some t })

/-- Spec scenario: snapshot `yes=[(45,10),(50,5)]`, `no=[(40,3)]` gives
top-of-book bid 50/5, ask 60/3. -/
theorem scenario_snapshot_top_of_book :
    ((OrderBook.init "T").update_from_snapshot
        (some [(45, 10), (50, 5)]) (some [(40, 3)])).top_of_book.1 =
      ⟨"T", some 50, some 5, some 60, some 3⟩ := by decide

/-- Spec scenario, continued: delta `price=50, side=yes, delta=-5`
removes the best bid level, exposing bid 45/10. -/
theorem scenario_delta_removes_best :
    (((OrderBook.init "T").update_from_snapshot
        (some [(45, 10), (50, 5)]) (some [(40, 3)])).update_from_delta
          50 (-5) "yes").top_of_book.1 =
      ⟨"T", some 45, some 10, some 60, some 3⟩ := by decide

/-- `OrderBookManager`: the registry, a dictionary from ticker to book
(`self._order_books`). -/
def OrderBookManager := List (String × OrderBook)

/-- `OrderBookManager.update_from_snapshot(ticker, yes, no)`: builds a
brand-new `OrderBook(ticker)`, populates it from the snapshot and stores
it under the ticker, replacing any previous book. -/
def OrderBookManager.update_from_snapshot (mgr : OrderBookManager)
    (market_ticker : String)
    (yes_orders no_orders : Option (List (Int × Int))) : OrderBookManager :=
  let order_book := (OrderBook.init market_ticker).update_from_snapshot
    yes_orders no_orders
  insertKey mgr market_ticker order_book

/-- `OrderBookManager.update_from_delta(ticker, price, delta, side)`:
`self._order_books.get(ticker)` followed by an unconditional method call
on the result.  When the ticker is unregistered the Python code calls
`update_from_delta` on `None` and raises `AttributeError`; that raised
exception is the `Except.error ()` branch. -/
def OrderBookManager.update_from_delta (mgr : OrderBookManager)
    (market_ticker : String) (price delta : Int) (side : String) :
    Except Unit OrderBookManager :=
  match lookupKey mgr market_ticker with
  | none => Except.error ()
  | some order_book =>
    Except.ok (insertKey mgr market_ticker
      (order_book.update_from_delta price delta side))

/-- `OrderBookManager.get_order_book(ticker)`: the book, or `None`. -/
def OrderBookManager.get_order_book (mgr : OrderBookManager)
    (market_ticker : String) : Option OrderBook :=
  lookupKey mgr market_ticker

/-- `OrderBookManager.get_all_tickers()`: the registry's key view. -/
def OrderBookManager.get_all_tickers (mgr : OrderBookManager) : List String :=
  keysOf mgr

/-- Market reference metadata (`Market` in `src/app/market_manager.py`);
the three time fields are carried as their ISO-8601 rendering, which is
all the dissemination path reads from them. -/
structure Market where
  ticker : String
  event_ticker : String
  title : String
  team_name : String
  expected_expiration_time_utc : String
  game_start_time : String
  estimated_start_time : String
deriving DecidableEq, Repr

/-- The market-metadata registry `MarketManager._markets`. -/
def MarketManager := List (String × Market)

/-- `MarketManager.get_market(ticker)` is `self._markets[ticker]`: a plain
dictionary subscript that raises `KeyError` when the ticker is absent.
`none` here stands for that raised `KeyError`. -/
def MarketManager.get_market (markets : MarketManager) (ticker : String) :
    Option Market :=
  lookupKey markets ticker

/-- The enriched outbound message built in `broadcast_top_of_book` /
`send_all_top_of_books`: the top-of-book fields merged with the market
metadata fields. -/
structure EnrichedMessage where
  top : TopOfBook
  event_ticker : String
  title : String
  team_name : String
  expected_expiration_time_utc : String
  game_start_time_mt : String
  estimated_start_time : String
deriving DecidableEq, Repr

/-- Build the enriched message `{**top_of_book, "event_ticker": ..., ...}`. -/
def mkMessage (top : TopOfBook) (m : Market) : EnrichedMessage :=
  ⟨top, m.event_ticker, m.title, m.team_name,
    m.expected_expiration_time_utc, m.game_start_time, m.estimated_start_time⟩

/-- `broadcast_top_of_book(ticker)` from `src/app/main.py`: fetches the
book and the market metadata, then builds and broadcasts the enriched
message.  `market_manager.get_market` raises `KeyError` when metadata is
absent, and when the book is absent the message construction hits an
unbound `top_of_book` name (`NameError`); both uncaught exceptions are
`Except.error ()`.  The `top_of_book()` read caches, so the possibly
updated registry is returned alongside the message. -/
def broadcast_top_of_book (mgr : OrderBookManager) (markets : MarketManager)
    (market_ticker : String) :
    Except Unit (EnrichedMessage × OrderBookManager) :=
  let order_book := mgr.get_order_book market_ticker
  match markets.get_market market_ticker with
  | none => Except.error ()
  | some market =>
    match order_book with
    | none => Except.error ()
    | some b =>
      Except.ok (mkMessage b.top_of_book.1 market,
        insertKey mgr market_ticker b.top_of_book.2)

/-- The typed upstream feed events consumed by `process_messages`. -/
inductive FeedMessage where
  | subscribed (channel : String)
  | orderbookSnapshot (market_ticker : String)
      (yes no : Option (List (Int × Int)))
  | orderbookDelta (market_ticker : String) (price delta : Int) (side : String)
  | other
deriving DecidableEq, Repr

/-- One iteration of the `process_messages` loop in `src/app/main.py` on
one feed event: capture `prev_top` (`None` when the book is absent),
apply the update through the registry, recompute `new_top`, and when they
differ structurally call `broadcast_top_of_book`.  Returns the updated
registry and the list of broadcast messages sent for this event;
`Except.error ()` is an uncaught exception killing the ingestion task
(the `AttributeError` of a delta on an unregistered ticker, or a failure
inside `broadcast_top_of_book`). -/
def processMessage (markets : MarketManager) (mgr : OrderBookManager) :
    FeedMessage → Except Unit (OrderBookManager × List EnrichedMessage)
  | FeedMessage.subscribed _ => Except.ok (mgr, [])
  | FeedMessage.other => Except.ok (mgr, [])
  | FeedMessage.orderbookSnapshot market_ticker yes no =>
    let prevPair : Option TopOfBook × OrderBookManager :=
      match mgr.get_order_book market_ticker with
      | none => (none, mgr)
      | some b =>
        (some b.top_of_book.1, insertKey mgr market_ticker b.top_of_book.2)
    let mgr1 := prevPair.2.update_from_snapshot market_ticker yes no
    match mgr1.get_order_book market_ticker with
    | none => Except.error ()
    | some nb =>
      let new_top := nb.top_of_book.1
      let mgr2 := insertKey mgr1 market_ticker nb.top_of_book.2
      if prevPair.1 = some new_top then Except.ok (mgr2, [])
      else
        match broadcast_top_of_book mgr2 markets market_ticker with
        | Except.error () => Except.error ()
        | Except.ok (msg, mgr3) => Except.ok (mgr3, [msg])
  | FeedMessage.orderbookDelta market_ticker price delta side =>
    match mgr.get_order_book market_ticker with
    | none =>
      -- prev_top is None here, but the registry delta then dereferences
      -- None: AttributeError, the task dies.
      Except.error ()
    | some b =>
      let prev_top := b.top_of_book.1
      let mgr1 := insertKey mgr market_ticker b.top_of_book.2
      let b2 := (b.top_of_book.2).update_from_delta price delta side
      let mgr2 := insertKey mgr1 market_ticker b2
      let new_top := b2.top_of_book.1
      let mgr3 := insertKey mgr2 market_ticker b2.top_of_book.2
      if prev_top = new_top then Except.ok (mgr3, [])
      else
        match broadcast_top_of_book mgr3 markets market_ticker with
        | Except.error () => Except.error ()
        | Except.ok (msg, mgr4) => Except.ok (mgr4, [msg])

theorem lookupKey_eraseKey {α β : Type} [DecidableEq α]
    (m : List (α × β)) (k k' : α) :
    lookupKey (eraseKey m k) k' = if k' = k then none else lookupKey m k' := by
  induction m with
  | nil => simp [eraseKey, lookupKey]
  | cons hd tl ih =>
    obtain ⟨a, b⟩ := hd
    by_cases hak : a = k
    · subst hak
      by_cases hk : k' = a <;> simp [eraseKey, lookupKey, hk] at ih ⊢ <;>
        simpa [eraseKey, hk] using ih
    · by_cases hk : k' = a
      · subst hk
        simp [eraseKey, lookupKey, hak, Ne.symm hak]
      · simp [eraseKey, lookupKey, hak, hk] at ih ⊢
        simpa [eraseKey, hk] using ih

theorem lookupKey_append {α β : Type} [DecidableEq α]
    (m₁ m₂ : List (α × β)) (k : α) :
    lookupKey (m₁ ++ m₂) k =
      match lookupKey m₁ k with
      | some v => some v
      | none => lookupKey m₂ k := by
  induction m₁ with
  | nil => simp [lookupKey]
  | cons hd tl ih =>
    obtain ⟨a, b⟩ := hd
    by_cases hk : k = a <;> simp [lookupKey, hk, ih]

theorem lookupKey_insertKey {α β : Type} [DecidableEq α]
    (m : List (α × β)) (k : α) (v : β) (k' : α) :
    lookupKey (insertKey m k v) k' =
      if k' = k then some v else lookupKey m k' := by
  by_cases hk : k' = k
  · simp [insertKey, lookupKey_append, lookupKey_eraseKey, hk, lookupKey]
  · simp [insertKey, lookupKey_append, lookupKey_eraseKey, hk, lookupKey]
    cases lookupKey m k' <;> simp

theorem maxKey_eq_none_iff (m : List (Int × Int)) :
    maxKey m = none ↔ m = [] := by
  cases m with
  | nil => simp [maxKey]
  | cons hd tl =>
    obtain ⟨a, b⟩ := hd
    simp [maxKey]
    cases maxKey tl <;> simp

theorem lookupKey_eq_none_forall_iff (m : List (Int × Int)) :
    (∀ p, lookupKey m p = none) ↔ m = [] := by
  constructor
  · intro h
    cases m with
    | nil => rfl
    | cons hd tl =>
      obtain ⟨a, b⟩ := hd
      have := h a
      simp [lookupKey] at this
  · intro h; subst h; intro p; rfl

theorem maxKey_lookupKey_isSome (m : List (Int × Int)) (k : Int)
    (h : maxKey m = some k) : ∃ v, lookupKey m k = some v := by
  induction m generalizing k with
  | nil => simp [maxKey] at h
  | cons hd tl ih =>
    obtain ⟨a, b⟩ := hd
    simp only [maxKey] at h
    cases htl : maxKey tl with
    | none =>
      rw [htl] at h
      simp at h
      subst h
      exact ⟨b, by simp [lookupKey]⟩
    | some m' =>
      rw [htl] at h
      simp at h
      subst h
      by_cases hka : max a m' = a
      · rw [hka]
        exact ⟨b, by simp [lookupKey]⟩
      · have hm' : max a m' = m' := by
          rcases max_choice a m' with hc | hc
          · exact absurd hc hka
          · exact hc
        rw [hm']
        obtain ⟨v, hv⟩ := ih m' htl
        refine ⟨v, ?_⟩
        have hne : m' ≠ a := by
          intro he
          exact hka (by rw [he] at hm' ⊢; exact hm')
        simp [lookupKey, hne, hv]

theorem maxKey_upper_bound (m : List (Int × Int)) (k : Int)
    (h : maxKey m = some k) (k' : Int) (h' : lookupKey m k' ≠ none) :
    k' ≤ k := by
  induction m generalizing k with
  | nil => simp [lookupKey] at h'
  | cons hd tl ih =>
    obtain ⟨a, b⟩ := hd
    simp only [maxKey] at h
    by_cases hk' : k' = a
    · subst hk'
      cases htl : maxKey tl with
      | none => rw [htl] at h; simp at h; omega
      | some m' =>
        rw [htl] at h
        simp only [Option.some.injEq] at h
        exact h ▸ le_max_left k' m'
    · simp [lookupKey, hk'] at h'
      cases htl : maxKey tl with
      | none =>
        rw [maxKey_eq_none_iff] at htl
        subst htl
        simp [lookupKey] at h'
      | some m' =>
        rw [htl] at h
        simp only [Option.some.injEq] at h
        have := ih m' htl (by simpa using h')
        exact le_trans this (h ▸ le_max_right a m')

/-- Modelled from the spec: `ConnectionManager` (the SubscriberRegistry of
the spec), whose file is not present in the sources.  Its state is the
set of active subscriber handles; `Connect(handle)` "adds to the active
set" and `Broadcast(message)` "sends to every active subscriber". -/
def ConnectionManager := List Nat

/-- Modelled from the spec: `ConnectionManager.connect(websocket)` adds
the handle to the active (live-broadcast) set. -/
def ConnectionManager.connect (s : ConnectionManager) (ws : Nat) :
    ConnectionManager :=
  ws :: s

/-- Outcome of walking `send_all_top_of_books`'s loop over a given ticker
list: messages sent so far, the (cache-)updated registry, and whether the
loop ran to completion (`false` when `get_market` raised `KeyError`, or
the message construction hit an unbound `top_of_book` name). -/
def sendAllGo (markets : MarketManager) (mgr : OrderBookManager) :
    List String → List EnrichedMessage →
    List EnrichedMessage × OrderBookManager × Bool
  | [], acc => (acc, mgr, true)
  | t :: rest, acc =>
    let order_book := mgr.get_order_book t
    match markets.get_market t with
    | none => (acc, mgr, false)
    | some market =>
      match order_book with
      | none => (acc, mgr, false)
      | some b =>
        sendAllGo markets (insertKey mgr t b.top_of_book.2) rest
          (acc ++ [mkMessage b.top_of_book.1 market])

/-- `send_all_top_of_books(websocket)` from `src/app/main.py`: iterate the
registry's tickers, sending one enriched current-top-of-book message per
ticker to the new client only.  Messages sent before an exception are
kept; the Bool records whether the loop completed without raising. -/
def send_all_top_of_books (mgr : OrderBookManager) (markets : MarketManager) :
    List EnrichedMessage × OrderBookManager × Bool :=
  sendAllGo markets mgr mgr.get_all_tickers []

/-- Observable events of the connection phase of `websocket_endpoint`:
the subscriber being added to the live-broadcast set, and each catch-up
message sent to it. -/
inductive WsEvent where
  | connected (ws : Nat)
  | catchUpSent (ws : Nat) (msg : EnrichedMessage)
deriving DecidableEq, Repr

/-- The connection phase of `websocket_endpoint` in `src/app/main.py`, as
the ordered trace of its observable events: `client_manager.connect` runs
first (the subscriber joins the live-broadcast set), then
`send_all_top_of_books` streams the catch-up messages.  Also returns the
updated live-broadcast set and registry, and whether catch-up completed
without an exception. -/
def websocket_endpoint_start (clients : ConnectionManager)
    (mgr : OrderBookManager) (markets : MarketManager) (ws : Nat) :
    List WsEvent × ConnectionManager × OrderBookManager × Bool :=
  let clients1 := clients.connect ws
  let r := send_all_top_of_books mgr markets
  (WsEvent.connected ws :: r.1.map (fun m => WsEvent.catchUpSent ws m),
    clients1, r.2.1, r.2.2)

/-- Is this trace event a catch-up send? -/
def WsEvent.isCatchUp : WsEvent → Bool
  | WsEvent.catchUpSent _ _ => true
  | _ => false

/-- Is this trace event the addition to the live-broadcast set? -/
def WsEvent.isConnected : WsEvent → Bool
  | WsEvent.connected _ => true
  | _ => false

/-- "All catch-up messages are delivered before the subscriber is added
to the live-broadcast set": in the trace, every catch-up send precedes
every addition to the live set. -/
def catchUpBeforeLive (tr : List WsEvent) : Prop :=
  ∀ i j : Fin tr.length,
    (tr.get i).isCatchUp = true → (tr.get j).isConnected = true →
      (i : Nat) < (j : Nat)

instance (tr : List WsEvent) : Decidable (catchUpBeforeLive tr) := by
  unfold catchUpBeforeLive
  infer_instance

/-- The cached top-of-book, when present, is the one recomputation would
produce: the correctness invariant of `_top_of_book_cache`. -/
def cacheOK (b : OrderBook) : Prop :=
  b.top_of_book_cache = none ∨ b.top_of_book_cache = some b.computeTopOfBook

/-- Order books reachable through the registry: every book is born from a
registry-level snapshot (`OrderBookManager.update_from_snapshot` always
builds a fresh `OrderBook`), and then evolves by deltas and by cache-
filling `top_of_book` reads. -/
inductive ReachableBook : OrderBook → Prop where
  | snap (market_ticker : String) (yes no : Option (List (Int × Int))) :
      ReachableBook
        ((OrderBook.init market_ticker).update_from_snapshot yes no)
  | delta (b : OrderBook) (price d : Int) (side : String) :
      ReachableBook b → ReachableBook (b.update_from_delta price d side)
  | read (b : OrderBook) :
      ReachableBook b → ReachableBook b.top_of_book.2

theorem cacheOK_of_reachable (b : OrderBook) (h : ReachableBook b) :
    cacheOK b := by
  induction h with
  | snap market_ticker yes no =>
    left
    rfl
  | delta b price d side _ _ =>
    left
    unfold OrderBook.update_from_delta
    by_cases h1 : side = "yes" <;> by_cases h2 : side = "no" <;>
      simp [h1, h2] <;> split <;> rfl
  | read b _ ih =>
    unfold OrderBook.top_of_book
    rcases ih with hc | hc
    · rw [hc]
      right
      rfl
    · rw [hc]
      right
      simpa using hc

theorem top_of_book_fst (b : OrderBook) (h : cacheOK b) :
    b.top_of_book.1 = b.computeTopOfBook := by
  rcases h with hc | hc <;> unfold OrderBook.top_of_book <;> rw [hc]

theorem top_of_book_snd_market_ticker (b : OrderBook) :
    b.top_of_book.2.market_ticker = b.market_ticker := by
  unfold OrderBook.top_of_book
  cases hc : b.top_of_book_cache <;> simp [hc]

theorem top_of_book_snd_yes_orders (b : OrderBook) :
    b.top_of_book.2.yes_orders = b.yes_orders := by
  unfold OrderBook.top_of_book
  cases hc : b.top_of_book_cache <;> simp [hc]

theorem top_of_book_snd_no_orders (b : OrderBook) :
    b.top_of_book.2.no_orders = b.no_orders := by
  unfold OrderBook.top_of_book
  cases hc : b.top_of_book_cache <;> simp [hc]

theorem top_of_book_snd_cache (b : OrderBook) :
    b.top_of_book.2.top_of_book_cache = some b.top_of_book.1 := by
  unfold OrderBook.top_of_book
  cases hc : b.top_of_book_cache <;> simp [hc]

theorem top_of_book_idem (b : OrderBook) :
    b.top_of_book.2.top_of_book = (b.top_of_book.1, b.top_of_book.2) := by
  conv_lhs => rw [OrderBook.top_of_book]
  rw [top_of_book_snd_cache]

theorem computeTopOfBook_bid_price (b : OrderBook) :
    b.computeTopOfBook.bid_price = maxKey b.yes_orders := rfl

theorem computeTopOfBook_bid_quantity (b : OrderBook) :
    b.computeTopOfBook.bid_quantity =
      match maxKey b.yes_orders with
      | none => none
      | some p => lookupKey b.yes_orders p := rfl

theorem computeTopOfBook_ask_price (b : OrderBook) :
    b.computeTopOfBook.ask_price =
      match maxKey b.no_orders with
      | none => none
      | some highest => some (100 - highest) := by
  unfold OrderBook.computeTopOfBook
  cases maxKey b.no_orders <;> rfl

theorem computeTopOfBook_ask_quantity (b : OrderBook) :
    b.computeTopOfBook.ask_quantity =
      match maxKey b.no_orders with
      | none => none
      | some highest => lookupKey b.no_orders highest := by
  unfold OrderBook.computeTopOfBook
  cases maxKey b.no_orders <;> rfl

theorem computeTopOfBook_congr (b b0 : OrderBook)
    (h1 : b.market_ticker = b0.market_ticker)
    (h2 : b.yes_orders = b0.yes_orders)
    (h3 : b.no_orders = b0.no_orders) :
    b.computeTopOfBook = b0.computeTopOfBook := by
  unfold OrderBook.computeTopOfBook
  rw [h1, h2, h3]

theorem mem_keysOf_of_lookupKey {α β : Type} [DecidableEq α]
    (m : List (α × β)) (k : α) (v : β) (h : lookupKey m k = some v) :
    k ∈ keysOf m := by
  induction m with
  | nil => simp [lookupKey] at h
  | cons hd tl ih =>
    obtain ⟨a, b⟩ := hd
    by_cases hk : k = a
    · simp [keysOf, hk]
    · simp [lookupKey, hk] at h
      simp [keysOf]
      right
      simpa [keysOf] using ih h

theorem lookupKey_isSome_of_mem_keysOf {α β : Type} [DecidableEq α]
    (m : List (α × β)) (k : α) (h : k ∈ keysOf m) :
    (lookupKey m k).isSome = true := by
  induction m with
  | nil => simp [keysOf] at h
  | cons hd tl ih =>
    obtain ⟨a, b⟩ := hd
    by_cases hk : k = a
    · simp [lookupKey, hk]
    · simp [keysOf, hk] at h
      simp [lookupKey, hk]
      exact ih (by simpa [keysOf] using h)

/-- The spec's scenario book: snapshot `yes=[(45,10),(50,5)]`,
`no=[(40,3)]`, used as the concrete input of several witnesses. -/
def scenarioBook : OrderBook :=
  (OrderBook.init "T").update_from_snapshot
    (some [(45, 10), (50, 5)]) (some [(40, 3)])

/-- C1: on every order book reachable through the registry's
snapshot/delta operations (`top_of_book` reads included, since they fill
the cache), `top_of_book` reports as bid the maximum `yes` key with its
stored quantity — both null exactly when the `yes` side is empty — and
as ask `100 -` the maximum `no` key with the quantity stored at that `no`
key — both null exactly when the `no` side is empty; an empty side is
handled, never an error. -/
theorem C1_top_of_book_correct (b : OrderBook) (h : ReachableBook b) :
    (b.top_of_book.1.bid_price = none ↔ ∀ p, lookupKey b.yes_orders p = none)
    ∧ (b.top_of_book.1.bid_quantity = none
        ↔ ∀ p, lookupKey b.yes_orders p = none)
    ∧ (∀ p, b.top_of_book.1.bid_price = some p →
        b.top_of_book.1.bid_quantity = lookupKey b.yes_orders p
        ∧ b.top_of_book.1.bid_quantity ≠ none
        ∧ ∀ p', lookupKey b.yes_orders p' ≠ none → p' ≤ p)
    ∧ (b.top_of_book.1.ask_price = none ↔ ∀ p, lookupKey b.no_orders p = none)
    ∧ (b.top_of_book.1.ask_quantity = none
        ↔ ∀ p, lookupKey b.no_orders p = none)
    ∧ (∀ p, b.top_of_book.1.ask_price = some p →
        ∃ k, p = 100 - k
        ∧ b.top_of_book.1.ask_quantity = lookupKey b.no_orders k
        ∧ b.top_of_book.1.ask_quantity ≠ none
        ∧ ∀ k', lookupKey b.no_orders k' ≠ none → k' ≤ k) := by
  rw [top_of_book_fst b (cacheOK_of_reachable b h)]
  refine ⟨?_, ?_, ?_, ?_, ?_, ?_⟩
  · rw [computeTopOfBook_bid_price, maxKey_eq_none_iff]
    exact (lookupKey_eq_none_forall_iff _).symm
  · constructor
    · intro hq
      cases hy : maxKey b.yes_orders with
      | none =>
        rw [maxKey_eq_none_iff] at hy
        rw [hy]
        exact fun p => rfl
      | some ky =>
        rw [computeTopOfBook_bid_quantity, hy] at hq
        have hq' : lookupKey b.yes_orders ky = none := hq
        obtain ⟨v, hv⟩ := maxKey_lookupKey_isSome _ ky hy
        rw [hv] at hq'
        simp at hq'
    · intro hall
      rw [computeTopOfBook_bid_quantity]
      rw [lookupKey_eq_none_forall_iff] at hall
      rw [hall]
      rfl
  · intro p hp
    rw [computeTopOfBook_bid_price] at hp
    refine ⟨?_, ?_, fun p' h' => maxKey_upper_bound _ p hp p' h'⟩
    · rw [computeTopOfBook_bid_quantity, hp]
    · rw [computeTopOfBook_bid_quantity, hp]
      obtain ⟨v, hv⟩ := maxKey_lookupKey_isSome _ p hp
      simp [hv]
  · constructor
    · intro hnone
      rw [computeTopOfBook_ask_price] at hnone
      cases hn : maxKey b.no_orders with
      | none =>
        rw [maxKey_eq_none_iff] at hn
        rw [hn]
        exact fun p => rfl
      | some kn => rw [hn] at hnone; simp at hnone
    · intro hall
      rw [computeTopOfBook_ask_price]
      rw [lookupKey_eq_none_forall_iff] at hall
      rw [hall]
      rfl
  · constructor
    · intro hq
      cases hn : maxKey b.no_orders with
      | none =>
        rw [maxKey_eq_none_iff] at hn
        rw [hn]
        exact fun p => rfl
      | some kn =>
        rw [computeTopOfBook_ask_quantity, hn] at hq
        have hq' : lookupKey b.no_orders kn = none := hq
        obtain ⟨v, hv⟩ := maxKey_lookupKey_isSome _ kn hn
        rw [hv] at hq'
        simp at hq'
    · intro hall
      rw [computeTopOfBook_ask_quantity]
      rw [lookupKey_eq_none_forall_iff] at hall
      rw [hall]
      rfl
  · intro p hp
    rw [computeTopOfBook_ask_price] at hp
    cases hn : maxKey b.no_orders with
    | none => rw [hn] at hp; simp at hp
    | some kn =>
      rw [hn] at hp
      simp only [Option.some.injEq] at hp
      refine ⟨kn, hp.symm, ?_, ?_,
        fun k' h' => maxKey_upper_bound _ kn hn k' h'⟩
      · rw [computeTopOfBook_ask_quantity, hn]
      · rw [computeTopOfBook_ask_quantity, hn]
        obtain ⟨v, hv⟩ := maxKey_lookupKey_isSome _ kn hn
        simp [hv]

/-- Witness for C1 at the spec's scenario book: snapshot
`yes=[(45,10),(50,5)]`, `no=[(40,3)]`. -/
theorem C1_top_of_book_correct_witness :
    ReachableBook scenarioBook
    ∧ ((scenarioBook.top_of_book.1.bid_price = none
          ↔ ∀ p, lookupKey scenarioBook.yes_orders p = none)
      ∧ (scenarioBook.top_of_book.1.bid_quantity = none
          ↔ ∀ p, lookupKey scenarioBook.yes_orders p = none)
      ∧ (∀ p, scenarioBook.top_of_book.1.bid_price = some p →
          scenarioBook.top_of_book.1.bid_quantity
            = lookupKey scenarioBook.yes_orders p
          ∧ scenarioBook.top_of_book.1.bid_quantity ≠ none
          ∧ ∀ p', lookupKey scenarioBook.yes_orders p' ≠ none → p' ≤ p)
      ∧ (scenarioBook.top_of_book.1.ask_price = none
          ↔ ∀ p, lookupKey scenarioBook.no_orders p = none)
      ∧ (scenarioBook.top_of_book.1.ask_quantity = none
          ↔ ∀ p, lookupKey scenarioBook.no_orders p = none)
      ∧ (∀ p, scenarioBook.top_of_book.1.ask_price = some p →
          ∃ k, p = 100 - k
          ∧ scenarioBook.top_of_book.1.ask_quantity
              = lookupKey scenarioBook.no_orders k
          ∧ scenarioBook.top_of_book.1.ask_quantity ≠ none
          ∧ ∀ k', lookupKey scenarioBook.no_orders k' ≠ none → k' ≤ k)) :=
  ⟨ReachableBook.snap "T" (some [(45, 10), (50, 5)]) (some [(40, 3)]),
    C1_top_of_book_correct scenarioBook
      (ReachableBook.snap "T" (some [(45, 10), (50, 5)]) (some [(40, 3)]))⟩

theorem update_from_delta_yes_at (b : OrderBook) (price delta : Int) :
    lookupKey (b.update_from_delta price delta "yes").yes_orders price
      = (if (lookupKey b.yes_orders price).getD 0 + delta ≤ 0 then none
         else some ((lookupKey b.yes_orders price).getD 0 + delta)) := by
  by_cases hq : (lookupKey b.yes_orders price).getD 0 + delta ≤ 0 <;>
    simp [OrderBook.update_from_delta, hq, lookupKey_eraseKey, lookupKey_insertKey]

theorem update_from_delta_yes_other (b : OrderBook) (price delta : Int)
    (p : Int) (hp : p ≠ price) :
    lookupKey (b.update_from_delta price delta "yes").yes_orders p
      = lookupKey b.yes_orders p := by
  by_cases hq : (lookupKey b.yes_orders price).getD 0 + delta ≤ 0 <;>
    simp [OrderBook.update_from_delta, hq, lookupKey_eraseKey,
      lookupKey_insertKey, hp]

theorem update_from_delta_yes_no_side (b : OrderBook) (price delta : Int) :
    (b.update_from_delta price delta "yes").no_orders = b.no_orders := by
  by_cases hq : (lookupKey b.yes_orders price).getD 0 + delta ≤ 0 <;>
    simp [OrderBook.update_from_delta, hq]

theorem update_from_delta_no_at (b : OrderBook) (price delta : Int) :
    lookupKey (b.update_from_delta price delta "no").no_orders price
      = (if (lookupKey b.no_orders price).getD 0 + delta ≤ 0 then none
         else some ((lookupKey b.no_orders price).getD 0 + delta)) := by
  by_cases hq : (lookupKey b.no_orders price).getD 0 + delta ≤ 0 <;>
    simp [OrderBook.update_from_delta, hq, lookupKey_eraseKey, lookupKey_insertKey]

theorem update_from_delta_no_other (b : OrderBook) (price delta : Int)
    (p : Int) (hp : p ≠ price) :
    lookupKey (b.update_from_delta price delta "no").no_orders p
      = lookupKey b.no_orders p := by
  by_cases hq : (lookupKey b.no_orders price).getD 0 + delta ≤ 0 <;>
    simp [OrderBook.update_from_delta, hq, lookupKey_eraseKey,
      lookupKey_insertKey, hp]

theorem update_from_delta_no_yes_side (b : OrderBook) (price delta : Int) :
    (b.update_from_delta price delta "no").yes_orders = b.yes_orders := by
  by_cases hq : (lookupKey b.no_orders price).getD 0 + delta ≤ 0 <;>
    simp [OrderBook.update_from_delta, hq]

theorem update_from_delta_ticker (b : OrderBook) (price delta : Int)
    (side : String) :
    (b.update_from_delta price delta side).market_ticker = b.market_ticker := by
  unfold OrderBook.update_from_delta
  by_cases h1 : side = "yes" <;> by_cases h2 : side = "no" <;>
    simp [h1, h2] <;> split <;> rfl

/-- C2: `update_from_delta` on side "yes" (resp. "no") stores
`new_qty = current + delta` at the targeted price, where an absent level
counts as quantity 0, removing the level when `new_qty ≤ 0`; every other
price on that side and the whole opposite side are unchanged. -/
theorem C2_delta_semantics (b : OrderBook) (price delta : Int) :
    (lookupKey (b.update_from_delta price delta "yes").yes_orders price
        = (if (lookupKey b.yes_orders price).getD 0 + delta ≤ 0 then none
           else some ((lookupKey b.yes_orders price).getD 0 + delta))
      ∧ (∀ p, p ≠ price →
          lookupKey (b.update_from_delta price delta "yes").yes_orders p
            = lookupKey b.yes_orders p)
      ∧ (b.update_from_delta price delta "yes").no_orders = b.no_orders)
    ∧ (lookupKey (b.update_from_delta price delta "no").no_orders price
        = (if (lookupKey b.no_orders price).getD 0 + delta ≤ 0 then none
           else some ((lookupKey b.no_orders price).getD 0 + delta))
      ∧ (∀ p, p ≠ price →
          lookupKey (b.update_from_delta price delta "no").no_orders p
            = lookupKey b.no_orders p)
      ∧ (b.update_from_delta price delta "no").yes_orders = b.yes_orders) :=
  ⟨⟨update_from_delta_yes_at b price delta,
    fun p hp => update_from_delta_yes_other b price delta p hp,
    update_from_delta_yes_no_side b price delta⟩,
   ⟨update_from_delta_no_at b price delta,
    fun p hp => update_from_delta_no_other b price delta p hp,
    update_from_delta_no_yes_side b price delta⟩⟩

/-- C3 (code bug): the snapshot population loop keeps entries with
`quantity >= 0`, so a snapshot entry with quantity 0 is stored as a zero
level instead of being dropped — against the spec's invariant and the
code's own comment "Only store positive quantities". -/
theorem C3_snapshot_stores_zero_quantity :
    lookupKey ((OrderBook.init "T").update_from_snapshot
        (some [(50, 0)]) none).yes_orders 50 = some 0 := by rfl

/-- C5 (counterexample): `update_from_delta` has no price-range check: a
delta at price 150 — outside [1,99] — on an empty book is not dropped but
stored like any other delta. -/
theorem C5_counterexample_out_of_range_delta_stored :
    lookupKey (OrderBook.init "T").yes_orders 150 = none
    ∧ lookupKey ((OrderBook.init "T").update_from_delta 150 5 "yes").yes_orders
        150 = some 5 := by
  exact ⟨rfl, by rfl⟩

/-- C5 (amended): `update_from_delta` performs no price validation: even
for a price outside [1,99] the delta is applied with the usual
`new_qty = current + delta` rule on the named side — there is no
`InvalidLevel` condition and the update is not dropped. -/
theorem C5_amended_no_price_validation (b : OrderBook) (price delta : Int)
    (_hrange : price < 1 ∨ 99 < price) :
    (lookupKey (b.update_from_delta price delta "yes").yes_orders price
        = (if (lookupKey b.yes_orders price).getD 0 + delta ≤ 0 then none
           else some ((lookupKey b.yes_orders price).getD 0 + delta))
      ∧ (b.update_from_delta price delta "yes").no_orders = b.no_orders)
    ∧ (lookupKey (b.update_from_delta price delta "no").no_orders price
        = (if (lookupKey b.no_orders price).getD 0 + delta ≤ 0 then none
           else some ((lookupKey b.no_orders price).getD 0 + delta))
      ∧ (b.update_from_delta price delta "no").yes_orders = b.yes_orders) :=
  ⟨⟨update_from_delta_yes_at b price delta,
    update_from_delta_yes_no_side b price delta⟩,
   ⟨update_from_delta_no_at b price delta,
    update_from_delta_no_yes_side b price delta⟩⟩

/-- Witness for C5 (amended) at price 150 on the scenario book. -/
theorem C5_amended_no_price_validation_witness :
    ((150 : Int) < 1 ∨ (99 : Int) < 150)
    ∧ ((lookupKey (scenarioBook.update_from_delta 150 5 "yes").yes_orders 150
          = (if (lookupKey scenarioBook.yes_orders 150).getD 0 + 5 ≤ 0
             then none
             else some ((lookupKey scenarioBook.yes_orders 150).getD 0 + 5))
        ∧ (scenarioBook.update_from_delta 150 5 "yes").no_orders
            = scenarioBook.no_orders)
      ∧ (lookupKey (scenarioBook.update_from_delta 150 5 "no").no_orders 150
          = (if (lookupKey scenarioBook.no_orders 150).getD 0 + 5 ≤ 0
             then none
             else some ((lookupKey scenarioBook.no_orders 150).getD 0 + 5))
        ∧ (scenarioBook.update_from_delta 150 5 "no").yes_orders
            = scenarioBook.yes_orders)) :=
  ⟨Or.inr (by decide),
    C5_amended_no_price_validation scenarioBook 150 5 (Or.inr (by decide))⟩

/-- C10 (counterexample): a zero delta is not an identity on stored book
content: a zero-quantity level — reachable, since snapshots store
quantity-0 entries — is removed by a delta of 0. -/
theorem C10_counterexample_zero_delta_not_identity :
    lookupKey ((OrderBook.init "T").update_from_snapshot
        (some [(50, 0)]) none).yes_orders 50 = some 0
    ∧ lookupKey (((OrderBook.init "T").update_from_snapshot
        (some [(50, 0)]) none).update_from_delta 50 0 "yes").yes_orders 50
        = none := by
  exact ⟨rfl, by rfl⟩

/-- C10 (amended): a zero delta leaves both sides' stored mappings
unchanged provided the targeted price's level on each side is either
absent or has positive quantity (an absent level stays absent because
`0 + 0 ≤ 0` removes a key that is not present, and a present positive
level is rewritten to the same quantity); on a stored level with
quantity ≤ 0 a zero delta instead removes the level. -/
theorem C10_amended_zero_delta_identity (b : OrderBook) (price : Int)
    (hy : lookupKey b.yes_orders price = none
      ∨ ∃ q, lookupKey b.yes_orders price = some q ∧ 0 < q)
    (hn : lookupKey b.no_orders price = none
      ∨ ∃ q, lookupKey b.no_orders price = some q ∧ 0 < q) :
    (∀ p, lookupKey (b.update_from_delta price 0 "yes").yes_orders p
        = lookupKey b.yes_orders p)
    ∧ (b.update_from_delta price 0 "yes").no_orders = b.no_orders
    ∧ (∀ p, lookupKey (b.update_from_delta price 0 "no").no_orders p
        = lookupKey b.no_orders p)
    ∧ (b.update_from_delta price 0 "no").yes_orders = b.yes_orders := by
  refine ⟨?_, update_from_delta_yes_no_side b price 0, ?_,
    update_from_delta_no_yes_side b price 0⟩
  · intro p
    by_cases hp : p = price
    · subst hp
      rw [update_from_delta_yes_at]
      rcases hy with hc | ⟨q, hq, hqpos⟩
      · rw [hc]
        simp
      · rw [hq]
        simp [hqpos, not_le.mpr hqpos]
    · exact update_from_delta_yes_other b price 0 p hp
  · intro p
    by_cases hp : p = price
    · subst hp
      rw [update_from_delta_no_at]
      rcases hn with hc | ⟨q, hq, hqpos⟩
      · rw [hc]
        simp
      · rw [hq]
        simp [hqpos, not_le.mpr hqpos]
    · exact update_from_delta_no_other b price 0 p hp

/-- Witness for C10 (amended) on the scenario book at price 50. -/
theorem C10_amended_zero_delta_identity_witness :
    (lookupKey scenarioBook.yes_orders 50 = none
      ∨ ∃ q, lookupKey scenarioBook.yes_orders 50 = some q ∧ 0 < q)
    ∧ (lookupKey scenarioBook.no_orders 50 = none
      ∨ ∃ q, lookupKey scenarioBook.no_orders 50 = some q ∧ 0 < q)
    ∧ ((∀ p, lookupKey (scenarioBook.update_from_delta 50 0 "yes").yes_orders p
          = lookupKey scenarioBook.yes_orders p)
      ∧ (scenarioBook.update_from_delta 50 0 "yes").no_orders
          = scenarioBook.no_orders
      ∧ (∀ p, lookupKey (scenarioBook.update_from_delta 50 0 "no").no_orders p
          = lookupKey scenarioBook.no_orders p)
      ∧ (scenarioBook.update_from_delta 50 0 "no").yes_orders
          = scenarioBook.yes_orders) :=
  ⟨Or.inr ⟨5, by rfl, by decide⟩, Or.inl (by rfl),
    C10_amended_zero_delta_identity scenarioBook 50
      (Or.inr ⟨5, by rfl, by decide⟩) (Or.inl (by rfl))⟩

theorem lookup_manager_snapshot (mgr : OrderBookManager) (t : String)
    (yes no : Option (List (Int × Int))) :
    lookupKey (mgr.update_from_snapshot t yes no) t
      = some ((OrderBook.init t).update_from_snapshot yes no) := by
  unfold OrderBookManager.update_from_snapshot
  rw [lookupKey_insertKey]
  simp

/-- C4 (code bug): a delta for a ticker with no registered book does not
yield a handled BookNotFound drop: `OrderBookManager.update_from_delta`
calls a method on the `None` returned by `.get`, raising `AttributeError`
(`Except.error ()`), and `process_messages` has no handler, so the
ingestion task crashes instead of continuing. -/
theorem C4_delta_unregistered_crashes (mgr : OrderBookManager)
    (markets : MarketManager) (t : String) (price delta : Int) (side : String)
    (h : lookupKey mgr t = none) :
    mgr.update_from_delta t price delta side = Except.error ()
    ∧ processMessage markets mgr (FeedMessage.orderbookDelta t price delta side)
        = Except.error () := by
  constructor
  · unfold OrderBookManager.update_from_delta
    rw [h]
  · simp only [processMessage, OrderBookManager.get_order_book, h]

/-- Witness for C4: a delta on ticker "T" against an empty registry. -/
theorem C4_delta_unregistered_crashes_witness :
    lookupKey ([] : OrderBookManager) "T" = none
    ∧ (OrderBookManager.update_from_delta [] "T" 50 5 "yes" = Except.error ()
      ∧ processMessage [] [] (FeedMessage.orderbookDelta "T" 50 5 "yes")
          = Except.error ()) :=
  ⟨rfl, C4_delta_unregistered_crashes [] [] "T" 50 5 "yes" rfl⟩

/-- C7 (counterexample): a registry snapshot whose `yes` input is absent
does not preserve the previously stored `yes` side: the book for "T"
holds `yes = {50: 5}`, and after `update_from_snapshot("T", None,
[(40,3)])` its stored `yes` level at 50 is gone. -/
theorem C7_counterexample_absent_side_cleared :
    (lookupKey (OrderBookManager.update_from_snapshot [] "T"
        (some [(50, 5)]) none) "T").map
      (fun b => lookupKey b.yes_orders 50) = some (some 5)
    ∧ (lookupKey (OrderBookManager.update_from_snapshot
        (OrderBookManager.update_from_snapshot [] "T" (some [(50, 5)]) none)
        "T" none (some [(40, 3)])) "T").map
      (fun b => lookupKey b.yes_orders 50) = some none := by
  exact ⟨rfl, rfl⟩

/-- C7 (amended): a registry snapshot replaces the whole book with a
freshly built one: the present side is replaced by the snapshot's kept
entries, and a side whose input is absent becomes empty — the previously
stored mapping for that side is discarded, not preserved. -/
theorem C7_amended_snapshot_replaces_book (mgr : OrderBookManager)
    (t : String) (ys ns : List (Int × Int)) :
    ((∀ p, (lookupKey (mgr.update_from_snapshot t none (some ns)) t).map
        (fun b => lookupKey b.yes_orders p) = some none)
      ∧ (∀ p, (lookupKey (mgr.update_from_snapshot t none (some ns)) t).map
          (fun b => lookupKey b.no_orders p)
            = some (lookupKey (storeLevels [] ns) p)))
    ∧ ((∀ p, (lookupKey (mgr.update_from_snapshot t (some ys) none) t).map
        (fun b => lookupKey b.no_orders p) = some none)
      ∧ (∀ p, (lookupKey (mgr.update_from_snapshot t (some ys) none) t).map
          (fun b => lookupKey b.yes_orders p)
            = some (lookupKey (storeLevels [] ys) p))) := by
  refine ⟨⟨?_, ?_⟩, ?_, ?_⟩ <;> intro p <;> rw [lookup_manager_snapshot] <;>
    simp [OrderBook.update_from_snapshot, OrderBook.init, storeLevels, lookupKey]

/-- Concrete market metadata used by the dissemination witnesses. -/
def sampleMarket : Market :=
  ⟨"T", "E", "Sample game", "Team A", "2026-01-01T01:00:00+00:00",
    "2025-12-31T15:00:00-07:00", "2025-12-31T18:00:00-07:00"⟩

/-- Registry holding only the scenario book under ticker "T". -/
def scenarioManager : OrderBookManager :=
  OrderBookManager.update_from_snapshot [] "T"
    (some [(45, 10), (50, 5)]) (some [(40, 3)])

/-- Metadata registry holding only `sampleMarket` under ticker "T". -/
def sampleMarkets : MarketManager := [("T", sampleMarket)]

/-- C8 (code bug): when the market metadata for a changed ticker is
missing at broadcast time, the event is not dropped with a log entry:
`MarketManager.get_market` is a bare `dict[ticker]` raising `KeyError`,
`broadcast_top_of_book` does not catch it, and `process_messages` crashes
instead of continuing with subsequent events. -/
theorem C8_missing_metadata_crashes (mgr : OrderBookManager)
    (markets : MarketManager) (t : String) (price delta : Int) (side : String)
    (b : OrderBook)
    (hmeta : lookupKey markets t = none)
    (hb : lookupKey mgr t = some b)
    (hchange : b.top_of_book.1
      ≠ ((b.top_of_book.2).update_from_delta price delta side).top_of_book.1) :
    broadcast_top_of_book mgr markets t = Except.error ()
    ∧ processMessage markets mgr (FeedMessage.orderbookDelta t price delta side)
        = Except.error () := by
  constructor
  · simp only [broadcast_top_of_book, MarketManager.get_market, hmeta]
  · simp only [processMessage, OrderBookManager.get_order_book, hb,
      broadcast_top_of_book, MarketManager.get_market, hmeta]
    simp [hchange]

/-- Witness for C8: the scenario book's best-bid level is removed while
the metadata registry is empty. -/
theorem C8_missing_metadata_crashes_witness :
    lookupKey ([] : MarketManager) "T" = none
    ∧ lookupKey scenarioManager "T" = some scenarioBook
    ∧ scenarioBook.top_of_book.1
        ≠ ((scenarioBook.top_of_book.2).update_from_delta 50 (-5)
            "yes").top_of_book.1
    ∧ (broadcast_top_of_book scenarioManager [] "T" = Except.error ()
      ∧ processMessage [] scenarioManager
          (FeedMessage.orderbookDelta "T" 50 (-5) "yes") = Except.error ()) :=
  ⟨rfl, rfl, by decide,
    C8_missing_metadata_crashes scenarioManager [] "T" 50 (-5) "yes"
      scenarioBook rfl rfl (by decide)⟩

/-- Fallback payload for total statement-level lookups; never reached
under the theorems' hypotheses. -/
def emptyMessage : EnrichedMessage :=
  ⟨⟨"", none, none, none, none⟩, "", "", "", "", "", ""⟩

/-- The enriched catch-up payload for one ticker, computed from the
original registry (current book content) and the metadata registry. -/
def catchUpMsg (mgr : OrderBookManager) (markets : MarketManager)
    (t : String) : EnrichedMessage :=
  match lookupKey mgr t, lookupKey markets t with
  | some b, some mkt => mkMessage b.computeTopOfBook mkt
  | _, _ => emptyMessage

/-- `cacheOK` lifted to an optional book (trivially true when absent). -/
def cacheOKopt : Option OrderBook → Prop
  | none => True
  | some b => cacheOK b

instance (b : OrderBook) : Decidable (cacheOK b) := by
  unfold cacheOK
  infer_instance

instance (o : Option OrderBook) : Decidable (cacheOKopt o) := by
  cases o with
  | none => exact isTrue trivial
  | some b => unfold cacheOKopt; infer_instance

/-- The registry as mutated by catch-up reads stays pointwise similar to
the original: same tickers, same book content per ticker, valid caches. -/
def booksAgree (m m0 : OrderBookManager) : Prop :=
  ∀ t, match lookupKey m t, lookupKey m0 t with
    | some b, some b0 =>
        b.market_ticker = b0.market_ticker ∧ b.yes_orders = b0.yes_orders
        ∧ b.no_orders = b0.no_orders ∧ cacheOK b
    | none, none => True
    | _, _ => False

theorem sendAllGo_spec (markets : MarketManager) (mgr0 : OrderBookManager)
    (ts : List String) :
    ∀ (mgr : OrderBookManager) (acc : List EnrichedMessage),
    booksAgree mgr mgr0 →
    (∀ t ∈ ts, (lookupKey mgr0 t).isSome = true) →
    (∀ t ∈ ts, (lookupKey markets t).isSome = true) →
    ∃ mgr', sendAllGo markets mgr ts acc
        = (acc ++ ts.map (catchUpMsg mgr0 markets), mgr', true)
      ∧ booksAgree mgr' mgr0 := by
  induction ts with
  | nil =>
    intro mgr acc hagree _ _
    exact ⟨mgr, by simp [sendAllGo], hagree⟩
  | cons t rest ih =>
    intro mgr acc hagree hts hmeta
    have h0 : (lookupKey mgr0 t).isSome = true := hts t (by simp)
    obtain ⟨b0, hb0⟩ : ∃ b0, lookupKey mgr0 t = some b0 := by
      cases hx : lookupKey mgr0 t with
      | none => rw [hx] at h0; simp at h0
      | some b0 => exact ⟨b0, rfl⟩
    obtain ⟨mkt, hmkt⟩ : ∃ mkt, lookupKey markets t = some mkt := by
      have h1 := hmeta t (by simp)
      cases hx : lookupKey markets t with
      | none => rw [hx] at h1; simp at h1
      | some mkt => exact ⟨mkt, rfl⟩
    have hag := hagree t
    cases hb : lookupKey mgr t with
    | none => rw [hb, hb0] at hag; exact absurd hag (by simp)
    | some b =>
      rw [hb, hb0] at hag
      obtain ⟨hmt, hyo, hno, hcache⟩ := hag
      have htop : b.top_of_book.1 = b0.computeTopOfBook := by
        rw [top_of_book_fst b hcache]
        exact computeTopOfBook_congr b b0 hmt hyo hno
      have hc2 : cacheOK b.top_of_book.2 := by
        right
        rw [top_of_book_snd_cache]
        rw [top_of_book_fst b hcache]
        exact congrArg some (computeTopOfBook_congr _ _
          (top_of_book_snd_market_ticker b) (top_of_book_snd_yes_orders b)
          (top_of_book_snd_no_orders b)).symm
      have hagree' : booksAgree (insertKey mgr t b.top_of_book.2) mgr0 := by
        intro t'
        by_cases ht' : t' = t
        · subst ht'
          rw [lookupKey_insertKey]
          simp only [if_pos rfl]
          rw [hb0]
          exact ⟨(top_of_book_snd_market_ticker b).trans hmt,
            (top_of_book_snd_yes_orders b).trans hyo,
            (top_of_book_snd_no_orders b).trans hno, hc2⟩
        · rw [lookupKey_insertKey]
          simp only [if_neg ht']
          exact hagree t'
      obtain ⟨mgr', hs, hagree''⟩ :=
        ih (insertKey mgr t b.top_of_book.2)
          (acc ++ [mkMessage b.top_of_book.1 mkt]) hagree'
          (fun u hu => hts u (by simp [hu]))
          (fun u hu => hmeta u (by simp [hu]))
      refine ⟨mgr', ?_, hagree''⟩
      simp only [sendAllGo, OrderBookManager.get_order_book,
        MarketManager.get_market, hb, hmkt]
      rw [hs]
      have hmsg : mkMessage b.top_of_book.1 mkt
          = catchUpMsg mgr0 markets t := by
        unfold catchUpMsg
        rw [hb0, hmkt, htop]
      rw [hmsg]
      simp

